import Mathlib

/-!
Shallow embedding of the CoreDNS `traffic` plugin
(`plugin/traffic/traffic.go`): query classification and DNS response
synthesis, together with models of the small interfaces the plugin calls
into (the xDS assignment client, zone trimming and the request helpers,
which live elsewhere in the repository).  All names handled by this
plugin are ASCII, so Go's byte indexing coincides with character
indexing throughout.
-/

/-- An IP address, abstracted to its family plus an opaque numeric value.
`Address().To4() == nil` in the Go code corresponds to the `v6`
constructor. -/
inductive Addr where
  | v4 (val : Nat)
  | v6 (val : Nat)
deriving DecidableEq, Repr

/-- `Address().To4() != nil` in the Go code. -/
def Addr.isV4 : Addr → Bool
  | .v4 _ => true
  | .v6 _ => false

/-- Modelled from the spec: an endpoint of the external assignment provider
(`xds.SocketAddress`, which is not under `src/`): an (address, port) pair
with an associated health status. -/
structure SockAddr where
  addr : Addr
  port : Nat
  healthy : Bool
deriving DecidableEq, Repr

/-- The resource records the plugin can emit: the `miekg/dns` record types
restricted to the fields `traffic.go` sets. -/
inductive RR where
  | a (name : String) (ttl : Nat) (addr : Addr)
  | aaaa (name : String) (ttl : Nat) (addr : Addr)
  | srv (name : String) (ttl priority weight port : Nat) (target : String)
  | soaRR (name : String) (ttl : Nat) (ns mbox : String)
      (serial refreshIv retryIv expireIv minttl : Nat)
deriving DecidableEq, Repr

/-- The owner name of a record. -/
def RR.rrName : RR → String
  | .a n _ _ => n
  | .aaaa n _ _ => n
  | .srv n _ _ _ _ _ => n
  | .soaRR n _ _ _ _ _ _ _ _ => n

/-- Whether a record is an address record of the family of `addr`. -/
def RR.matchesFamily : RR → Addr → Bool
  | .a _ _ _, .v4 _ => true
  | .aaaa _ _ _, .v6 _ => true
  | _, _ => false

/-- A DNS response message: the fields of `dns.Msg` that `ServeDNS` sets.
`rcode` 0 is NOERROR (success), 3 is NXDOMAIN (name error). -/
structure Msg where
  rcode : Nat
  answer : List RR
  ns : List RR
  extra : List RR
  authoritative : Bool
deriving DecidableEq, Repr

/-- The query types `ServeDNS` distinguishes; every other query type takes
the `other` branch. -/
inductive QType where
  | a
  | aaaa
  | srv
  | other
deriving DecidableEq, Repr

/-- The static configuration of the plugin read by `ServeDNS`: `origins`
(the configured zones, normalized lower-case FQDNs), `mgmt` (the
management cluster) and `health` (the health-filter flag). -/
structure Traffic where
  origins : List String
  mgmt : String
  health : Bool
deriving DecidableEq, Repr

/-- Modelled from the spec: the state of the external assignment provider
(`xds.Client`, which is not under `src/`): a finite assignment of cluster
names to ordered endpoint lists. -/
structure XdsState where
  clusters : List (String × List SockAddr)
deriving DecidableEq, Repr

/-- ASCII lower-casing of a string, character by character
(`strings.ToLower` on the names this plugin handles). -/
def strToLower (s : String) : String :=
  String.mk (s.toList.map Char.toLower)

/-- `strings.HasSuffix s post`. -/
def strEndsWith (s post : String) : Bool :=
  post.toList.isSuffixOf s.toList

/-- `strings.HasPrefix s pre`. -/
def strStartsWith (s pre : String) : Bool :=
  pre.toList.isPrefixOf s.toList

/-- Drop the first `n` characters: Go slicing `s[n:]` on ASCII strings. -/
def strDrop (s : String) (n : Nat) : String :=
  String.mk (s.toList.drop n)

/-- Index of the first occurrence of a character (`strings.Index` on ASCII
strings, with `none` for Go's `-1`). -/
def charIndex (c : Char) : List Char → Option Nat
  | [] => none
  | d :: ds => if d = c then some 0 else (charIndex c ds).map (· + 1)

/-- Split a character list on a separator character. -/
def splitOnChar (sep : Char) : List Char → List (List Char)
  | [] => [[]]
  | c :: cs =>
    match splitOnChar sep cs with
    | [] => [[]]
    | h :: t => if c = sep then [] :: h :: t else (c :: h) :: t

/-- `dns.SplitDomainName`: split a domain name into its labels; the empty
name and the root return no labels, and a trailing dot is not an extra
label.  (Escaped dots do not occur in this plugin's inputs.) -/
def splitDomainName (s : String) : List String :=
  if s = "" ∨ s = "." then []
  else
    let cs := s.toList
    let cs := if cs.getLast? = some '.' then cs.dropLast else cs
    (splitOnChar '.' cs).map (fun l => String.mk l)

/-- Join labels with dots, without a trailing dot. -/
def joinDots : List String → String
  | [] => ""
  | [l] => l
  | l :: ls => l ++ "." ++ joinDots ls

/-- `strconv.Atoi`: an optional sign followed by at least one digit.
(Integer overflow only happens far outside this plugin's input range and
is not modelled.) -/
def atoi (s : String) : Option Int :=
  let cs := s.toList
  let p : Bool × List Char :=
    match cs with
    | '-' :: rest => (true, rest)
    | '+' :: rest => (false, rest)
    | _ => (false, cs)
  if p.2 = [] then none
  else if p.2.all Char.isDigit then
    let n : Nat := p.2.foldl (fun acc c => acc * 10 + (c.toNat - 48)) 0
    some (if p.1 then -(n : Int) else (n : Int))
  else none

/-- Modelled from the spec: `dnsutil.TrimZone` (not under `src/`) removes
the zone's labels from the end of the name; when the name has no labels
beyond the zone it fails, and `ServeDNS` ignores the error, keeping the
empty string. -/
def trimZone (q z : String) : String :=
  let ql := splitDomainName q
  let zl := (splitDomainName z).length
  if ql.length ≤ zl then ""
  else joinDots (ql.take (ql.length - zl))

/-- Modelled from the spec: `dnsutil.Join` (not under `src/`) joins a label
under a zone into a fully qualified name. -/
def dnsJoin (l z : String) : String :=
  if z = "" then l ++ "."
  else if strEndsWith z "." then l ++ "." ++ z
  else l ++ "." ++ z ++ "."

/-- Modelled from the spec: `request.Request.Name` (not under `src/`) is
the lower-cased fully qualified query name; `request.Request.QName` keeps
the original case and is what the answer records echo. -/
def requestName (qname : String) : String := strToLower qname

/-- The synthetic SOA of `traffic.go`; the serial is the wall-clock Unix
time truncated to 32 bits, passed in as `now`. -/
def soa (now : Nat) (z : String) : List RR :=
  [RR.soaRR z 5 (dnsJoin "ns" z) (dnsJoin "coredns" z)
    (now % 2 ^ 32) 14400 3600 604800 5]

/-- `m := new(dns.Msg); m.SetReply(r); m.Authoritative = true`. -/
def mkReply : Msg :=
  { rcode := 0, answer := [], ns := [], extra := [], authoritative := true }

/-- NODATA: empty answer, synthetic SOA in the authority section, rcode
NOERROR. -/
def nodataMsg (now : Nat) (z : String) : Msg :=
  { mkReply with ns := soa now z }

/-- NXDOMAIN: empty answer, synthetic SOA in the authority section, rcode
name error. -/
def nxdomainMsg (now : Nat) (z : String) : Msg :=
  { mkReply with ns := soa now z, rcode := 3 }

/-- The endpoints of a cluster that are visible under the health-filter
flag. -/
def healthyFilter (h : Bool) (l : List SockAddr) : List SockAddr :=
  if h then l.filter (fun sa => sa.healthy) else l

/-- Modelled from the spec: `xds.Client.Select` (not under `src/`).  The
boolean is whether the cluster exists; the endpoint is one of the
cluster's endpoints passing the health filter (the provider's selection
policy is opaque, the model picks the first) or `none` when there is
none. -/
def xdsSelect (st : XdsState) (c : String) (h : Bool) :
    Option SockAddr × Bool :=
  match st.clusters.lookup c with
  | none => (none, false)
  | some l => ((healthyFilter h l).head?, true)

/-- Modelled from the spec: `xds.Client.All` (not under `src/`): the full
ordered endpoint list of the cluster under the health filter, empty when
the cluster does not exist. -/
def xdsAll (st : XdsState) (c : String) (h : Bool) : List SockAddr :=
  match st.clusters.lookup c with
  | none => []
  | some l => healthyFilter h l

/-- The zone-matching loop at the top of `ServeDNS`: the first configured
origin that is a string suffix of the (lower-cased) query name; the result
is the pair (cluster identifier, matched zone), both empty when no origin
matches. -/
def matchZone (origins : List String) (name : String) : String × String :=
  match origins.find? (fun o => strEndsWith name o) with
  | some o => (trimZone name o, o)
  | none => ("", "")

/-- The SRV target `fmt.Sprintf("endpoint-%d.%s.%s", i, cluster, zone)`. -/
def srvTarget (i : Nat) (cluster zone : String) : String :=
  "endpoint-" ++ Nat.repr i ++ "." ++ cluster ++ "." ++ zone

/-- The glue record for an SRV target: A or AAAA according to the
endpoint's address family. -/
def glueRR (name : String) (addr : Addr) : RR :=
  if addr.isV4 then RR.a name 5 addr else RR.aaaa name 5 addr

/-- The SRV loop of `ServeDNS`: one SRV record in the answer section and
one glue record in the additional section per endpoint, indexed by
position in the list. -/
def srvLoop (qname cluster zone : String) :
    Nat → List SockAddr → List RR × List RR
  | _, [] => ([], [])
  | i, sa :: rest =>
    let p := srvLoop qname cluster zone (i + 1) rest
    (RR.srv qname 5 100 100 sa.port (srvTarget i cluster zone) :: p.1,
     glueRR (srvTarget i cluster zone) sa.addr :: p.2)

/-- The per-endpoint answer switch shared verbatim by `ServeDNS`
(A/AAAA/default branches) and `serveEndpoint`: an address-family mismatch
and an unknown query type are NODATA. -/
def endpointAnswer (now : Nat) (zone qname : String) (qtype : QType)
    (addr : Addr) : Msg :=
  match qtype with
  | .a =>
    if addr.isV4 then { mkReply with answer := [RR.a qname 5 addr] }
    else nodataMsg now zone
  | .aaaa =>
    if addr.isV4 then nodataMsg now zone
    else { mkReply with answer := [RR.aaaa qname 5 addr] }
  | _ => nodataMsg now zone

/-- The query-type switch of `ServeDNS` once a single endpoint has been
selected (`sockaddr != nil`). -/
def synthesize (t : Traffic) (st : XdsState) (now : Nat)
    (zone qname cluster : String) (qtype : QType) (sa : SockAddr) : Msg :=
  match qtype with
  | .srv =>
    { mkReply with
      answer := (srvLoop qname cluster zone 0 (xdsAll st cluster t.health)).1,
      extra := (srvLoop qname cluster zone 0 (xdsAll st cluster t.health)).2 }
  | _ => endpointAnswer now zone qname qtype sa.addr

/-- The integer parse at the top of `serveEndpoint`: everything after the
first `-`.  The same NXDOMAIN is emitted whether the dash is missing or
the integer malformed, so the Go early exits collapse into `none`. -/
def parseEndpointNr (endpoint : String) : Option Int :=
  match charIndex '-' endpoint.toList with
  | none => none
  | some i =>
    if i = endpoint.toList.length then none
    else atoi (strDrop endpoint (i + 1))

/-- The tail of `serveEndpoint` once the endpoint number `nr` has been
parsed: the `len(sockaddrs) < nr` guard, then the indexing
`sockaddrs[nr]`.  The `none` results are the executions in which the Go
code indexes out of range (negative `nr`, or `nr` equal to the list
length, which the guard lets through) and panics. -/
def serveEndpointNr (t : Traffic) (st : XdsState) (now : Nat)
    (zone qname : String) (qtype : QType) (cluster : String) (nr : Int) :
    Option Msg :=
  if ((xdsAll st cluster t.health).length : Int) < nr then
    some (nxdomainMsg now zone)
  else if nr < 0 then none
  else
    match (xdsAll st cluster t.health).get? nr.toNat with
    | none => none
    | some sa => some (endpointAnswer now zone qname qtype sa.addr)

/-- `(*Traffic).serveEndpoint`. -/
def serveEndpoint (t : Traffic) (st : XdsState) (now : Nat)
    (zone qname : String) (qtype : QType) (endpoint cluster : String) :
    Option Msg :=
  match parseEndpointNr endpoint with
  | none => some (nxdomainMsg now zone)
  | some nr => serveEndpointNr t st now zone qname qtype cluster nr

/-- Outcome of the `!ok` fallback block of `ServeDNS`: an early reply, a
tail call into `serveEndpoint`, or falling through to the
`sockaddr == nil` check with a possibly updated cluster and endpoint. -/
inductive AfterSelect where
  | emit (m : Msg)
  | endpoint (ep cluster : String)
  | cont (cluster : String) (sockaddr : Option SockAddr)
deriving DecidableEq, Repr

/-- The `switch len(labels)` fallback of `ServeDNS`, entered when the
direct lookup of the full subject failed. -/
def classifyFallback (t : Traffic) (st : XdsState) (now : Nat)
    (zone cluster : String) : AfterSelect :=
  match splitDomainName cluster with
  | [l0, l1] =>
    if strToLower l0 = "_tcp" then .emit (nodataMsg now zone)
    else if strStartsWith (strToLower l0) "endpoint-" then
      if (xdsSelect st l1 t.health).2 then .endpoint l0 l1
      else .emit (nxdomainMsg now zone)
    else .cont cluster none
  | [l0, l1, _] =>
    if strToLower l0 ≠ "_grpclb" ∨ strToLower l1 ≠ "_tcp" then
      .emit (nxdomainMsg now zone)
    else .cont t.mgmt (xdsSelect st t.mgmt t.health).1
  | _ => .emit (nxdomainMsg now zone)

/-- The body of `(*Traffic).ServeDNS` after the zone-matching loop already
computed the cluster identifier and the matched zone. -/
def serveDNSCore (t : Traffic) (st : XdsState) (now : Nat)
    (cluster zone qname : String) (qtype : QType) : Option Msg :=
  match (if (xdsSelect st cluster t.health).2 then
           AfterSelect.cont cluster (xdsSelect st cluster t.health).1
         else classifyFallback t st now zone cluster) with
  | .emit m => some m
  | .endpoint ep cl => serveEndpoint t st now zone qname qtype ep cl
  | .cont cl sa =>
    match sa with
    | none => some (nodataMsg now zone)
    | some s => some (synthesize t st now zone qname cl qtype s)

/-- `(*Traffic).ServeDNS`, returning the message written to the client;
`none` is a Go panic (see `serveEndpoint`).  The handler never delegates
to the next plugin: it writes a reply on every non-panicking path. -/
def serveDNS (t : Traffic) (st : XdsState) (now : Nat) (qname : String)
    (qtype : QType) : Option Msg :=
  serveDNSCore t st now (matchZone t.origins (requestName qname)).1
    (matchZone t.origins (requestName qname)).2 qname qtype

/-- Spec-side definition for C3, following the spec's words: a zone
matches a query name case-insensitively at a DNS label boundary, i.e. the
zone's label sequence is a suffix of the name's label sequence. -/
def zoneMatchesSpec (name o : String) : Bool :=
  (splitDomainName (strToLower o)).isSuffixOf
    (splitDomainName (strToLower name))

/-- The response invariant of C5: the rcode is NOERROR or NXDOMAIN, and
exactly one of a non-empty answer section or a synthetic SOA in the
authority section is populated. -/
def msgInv (now : Nat) (m : Msg) : Prop :=
  (m.rcode = 0 ∨ m.rcode = 3) ∧
    ((m.answer ≠ [] ∧ m.ns = []) ∨ (m.answer = [] ∧ ∃ z, m.ns = soa now z))

/-- Example configuration: one zone and management cluster `mgmt`. -/
def exTraffic : Traffic :=
  { origins := ["example.org."], mgmt := "mgmt", health := false }

/-- Example provider state: one cluster `web` with a single healthy IPv4
endpoint. -/
def exState : XdsState :=
  { clusters := [("web",
      [{ addr := Addr.v4 167772161, port := 8080, healthy := true }])] }

/-- Example provider state with a cluster literally named `_tcp.web`. -/
def exStateTcp : XdsState :=
  { clusters := [("_tcp.web",
      [{ addr := Addr.v4 5, port := 80, healthy := true }])] }

lemma xdsSelect_eq_none (st : XdsState) (c : String) (h : Bool)
    (hm : st.clusters.lookup c = none) : xdsSelect st c h = (none, false) := by
  simp [xdsSelect, hm]

lemma xdsSelect_snd_true (st : XdsState) (c : String) (h : Bool)
    (l : List SockAddr) (hm : st.clusters.lookup c = some l) :
    (xdsSelect st c h).2 = true := by
  simp [xdsSelect, hm]

lemma xdsAll_ne_nil_of_select (st : XdsState) (c : String) (h : Bool)
    (s : SockAddr) (hs : (xdsSelect st c h).1 = some s) :
    xdsAll st c h ≠ [] := by
  intro hnil
  unfold xdsSelect at hs
  unfold xdsAll at hnil
  cases hcl : st.clusters.lookup c with
  | none => rw [hcl] at hs; simp at hs
  | some l =>
    rw [hcl] at hs hnil
    have hs' : (healthyFilter h l).head? = some s := hs
    have hnil' : healthyFilter h l = [] := hnil
    rw [hnil'] at hs'
    simp at hs'

lemma msgInv_nodata (now : Nat) (z : String) : msgInv now (nodataMsg now z) :=
  ⟨Or.inl rfl, Or.inr ⟨rfl, z, rfl⟩⟩

lemma msgInv_nxdomain (now : Nat) (z : String) :
    msgInv now (nxdomainMsg now z) :=
  ⟨Or.inr rfl, Or.inr ⟨rfl, z, rfl⟩⟩

lemma msgInv_answer (now : Nat) (r : RR) :
    msgInv now { mkReply with answer := [r] } :=
  ⟨Or.inl rfl, Or.inl ⟨by simp, rfl⟩⟩

lemma msgInv_endpointAnswer (now : Nat) (zone qname : String) (qtype : QType)
    (addr : Addr) : msgInv now (endpointAnswer now zone qname qtype addr) := by
  cases qtype with
  | a =>
    cases haddr : addr.isV4 with
    | true => simpa [endpointAnswer, haddr] using msgInv_answer now (RR.a qname 5 addr)
    | false => simpa [endpointAnswer, haddr] using msgInv_nodata now zone
  | aaaa =>
    cases haddr : addr.isV4 with
    | true => simpa [endpointAnswer, haddr] using msgInv_nodata now zone
    | false => simpa [endpointAnswer, haddr] using msgInv_answer now (RR.aaaa qname 5 addr)
  | srv => exact msgInv_nodata now zone
  | other => exact msgInv_nodata now zone

lemma srvLoop_fst_ne_nil (qname cluster zone : String) (n : Nat)
    (l : List SockAddr) (hl : l ≠ []) :
    (srvLoop qname cluster zone n l).1 ≠ [] := by
  cases l with
  | nil => exact absurd rfl hl
  | cons a rest => simp [srvLoop]

lemma msgInv_synthesize (t : Traffic) (st : XdsState) (now : Nat)
    (zone qname cluster : String) (qtype : QType) (sa : SockAddr)
    (hne : qtype = QType.srv → xdsAll st cluster t.health ≠ []) :
    msgInv now (synthesize t st now zone qname cluster qtype sa) := by
  cases qtype with
  | srv =>
    have h := hne rfl
    unfold synthesize
    exact ⟨Or.inl rfl,
      Or.inl ⟨srvLoop_fst_ne_nil qname cluster zone 0 _ h, rfl⟩⟩
  | a => exact msgInv_endpointAnswer now zone qname QType.a sa.addr
  | aaaa => exact msgInv_endpointAnswer now zone qname QType.aaaa sa.addr
  | other => exact msgInv_endpointAnswer now zone qname QType.other sa.addr

lemma msgInv_serveEndpoint (t : Traffic) (st : XdsState) (now : Nat)
    (zone qname : String) (qtype : QType) (endpoint cluster : String)
    (m : Msg) (h : serveEndpoint t st now zone qname qtype endpoint cluster = some m) :
    msgInv now m := by
  unfold serveEndpoint at h
  cases hp : parseEndpointNr endpoint with
  | none => rw [hp] at h; cases h; exact msgInv_nxdomain now zone
  | some nr =>
    rw [hp] at h
    have h' : serveEndpointNr t st now zone qname qtype cluster nr = some m := h
    unfold serveEndpointNr at h'
    by_cases h1 : ((xdsAll st cluster t.health).length : Int) < nr
    · rw [if_pos h1] at h'; cases h'; exact msgInv_nxdomain now zone
    · rw [if_neg h1] at h'
      by_cases h2 : nr < 0
      · rw [if_pos h2] at h'; cases h'
      · rw [if_neg h2] at h'
        cases hg : (xdsAll st cluster t.health).get? nr.toNat with
        | none => rw [hg] at h'; cases h'
        | some sa =>
          rw [hg] at h'; cases h'
          exact msgInv_endpointAnswer now zone qname qtype sa.addr

lemma classifyFallback_emit (t : Traffic) (st : XdsState) (now : Nat)
    (zone cluster : String) (m : Msg)
    (h : classifyFallback t st now zone cluster = .emit m) :
    m = nodataMsg now zone ∨ m = nxdomainMsg now zone := by
  unfold classifyFallback at h
  split at h
  · split at h
    · exact Or.inl (by injection h with h; exact h.symm)
    · split at h
      · split at h
        · exact absurd h (by simp)
        · exact Or.inr (by injection h with h; exact h.symm)
      · exact absurd h (by simp)
  · split at h
    · exact Or.inr (by injection h with h; exact h.symm)
    · exact absurd h (by simp)
  · exact Or.inr (by injection h with h; exact h.symm)

lemma classifyFallback_cont (t : Traffic) (st : XdsState) (now : Nat)
    (zone cluster : String) (cl : String) (sa : Option SockAddr)
    (h : classifyFallback t st now zone cluster = .cont cl sa) :
    sa = none ∨ sa = (xdsSelect st cl t.health).1 := by
  unfold classifyFallback at h
  split at h
  · split at h
    · exact absurd h (by simp)
    · split at h
      · split at h
        · exact absurd h (by simp)
        · exact absurd h (by simp)
      · exact Or.inl (by injection h with h1 h2; exact h2.symm)
  · split at h
    · exact absurd h (by simp)
    · injection h with h1 h2
      subst h1
      exact Or.inr h2.symm
  · exact absurd h (by simp)

lemma serveDNS_eq_core (t : Traffic) (st : XdsState) (now : Nat)
    (qname : String) (qtype : QType) (cluster zone : String)
    (hm : matchZone t.origins (requestName qname) = (cluster, zone)) :
    serveDNS t st now qname qtype =
      serveDNSCore t st now cluster zone qname qtype := by
  unfold serveDNS
  rw [hm]

lemma serveDNSCore_emit (t : Traffic) (st : XdsState) (now : Nat)
    (cluster zone qname : String) (qtype : QType) (m : Msg)
    (hmiss : st.clusters.lookup cluster = none)
    (hcf : classifyFallback t st now zone cluster = .emit m) :
    serveDNSCore t st now cluster zone qname qtype = some m := by
  unfold serveDNSCore
  rw [xdsSelect_eq_none st cluster t.health hmiss, hcf]
  exact rfl

lemma serveDNSCore_endpoint (t : Traffic) (st : XdsState) (now : Nat)
    (cluster zone qname : String) (qtype : QType) (ep cl : String)
    (hmiss : st.clusters.lookup cluster = none)
    (hcf : classifyFallback t st now zone cluster = .endpoint ep cl) :
    serveDNSCore t st now cluster zone qname qtype =
      serveEndpoint t st now zone qname qtype ep cl := by
  unfold serveDNSCore
  rw [xdsSelect_eq_none st cluster t.health hmiss, hcf]
  exact rfl

lemma serveDNSCore_cont_none (t : Traffic) (st : XdsState) (now : Nat)
    (cluster zone qname : String) (qtype : QType) (cl : String)
    (hmiss : st.clusters.lookup cluster = none)
    (hcf : classifyFallback t st now zone cluster = .cont cl none) :
    serveDNSCore t st now cluster zone qname qtype =
      some (nodataMsg now zone) := by
  unfold serveDNSCore
  rw [xdsSelect_eq_none st cluster t.health hmiss, hcf]
  exact rfl

lemma serveDNSCore_cont_some (t : Traffic) (st : XdsState) (now : Nat)
    (cluster zone qname : String) (qtype : QType) (cl : String)
    (s : SockAddr)
    (hmiss : st.clusters.lookup cluster = none)
    (hcf : classifyFallback t st now zone cluster = .cont cl (some s)) :
    serveDNSCore t st now cluster zone qname qtype =
      some (synthesize t st now zone qname cl qtype s) := by
  unfold serveDNSCore
  rw [xdsSelect_eq_none st cluster t.health hmiss, hcf]
  exact rfl

lemma serveDNSCore_ok (t : Traffic) (st : XdsState) (now : Nat)
    (cluster zone qname : String) (qtype : QType) (sa : SockAddr)
    (hsel : xdsSelect st cluster t.health = (some sa, true)) :
    serveDNSCore t st now cluster zone qname qtype =
      some (synthesize t st now zone qname cluster qtype sa) := by
  unfold serveDNSCore
  rw [hsel]
  exact rfl

lemma serveEndpoint_valid (t : Traffic) (st : XdsState) (now : Nat)
    (zone qname : String) (qtype : QType) (endpoint cluster : String)
    (nr : Int) (sa : SockAddr)
    (hparse : parseEndpointNr endpoint = some nr)
    (hnr : 0 ≤ nr)
    (hget : (xdsAll st cluster t.health).get? nr.toNat = some sa) :
    serveEndpoint t st now zone qname qtype endpoint cluster =
      some (endpointAnswer now zone qname qtype sa.addr) := by
  unfold serveEndpoint
  rw [hparse]
  show serveEndpointNr t st now zone qname qtype cluster nr =
    some (endpointAnswer now zone qname qtype sa.addr)
  have hlt : nr.toNat < (xdsAll st cluster t.health).length := by
    obtain ⟨hl, -⟩ := List.get?_eq_some.mp hget
    exact hl
  have h1 : ¬ ((xdsAll st cluster t.health).length : Int) < nr := by
    have hnn : (nr.toNat : Int) = nr := Int.toNat_of_nonneg hnr
    omega
  unfold serveEndpointNr
  rw [if_neg h1, if_neg (not_lt.mpr hnr), hget]

lemma endpointAnswer_a_v4 (now : Nat) (zone qname : String) (addr : Addr)
    (h : addr.isV4 = true) :
    endpointAnswer now zone qname QType.a addr =
      { mkReply with answer := [RR.a qname 5 addr] } := by
  simp [endpointAnswer, h]

lemma endpointAnswer_aaaa_v6 (now : Nat) (zone qname : String) (addr : Addr)
    (h : addr.isV4 = false) :
    endpointAnswer now zone qname QType.aaaa addr =
      { mkReply with answer := [RR.aaaa qname 5 addr] } := by
  simp [endpointAnswer, h]

lemma srvLoop_lengths (qname cluster zone : String) (n : Nat)
    (l : List SockAddr) :
    (srvLoop qname cluster zone n l).1.length = l.length ∧
    (srvLoop qname cluster zone n l).2.length = l.length := by
  induction l generalizing n with
  | nil => exact ⟨rfl, rfl⟩
  | cons a rest ih =>
    have hr := ih (n + 1)
    simp [srvLoop, hr.1, hr.2]

lemma srvLoop_get? (qname cluster zone : String) (n : Nat)
    (l : List SockAddr) (i : Nat) (sai : SockAddr)
    (h : l.get? i = some sai) :
    (srvLoop qname cluster zone n l).1.get? i =
      some (RR.srv qname 5 100 100 sai.port (srvTarget (n + i) cluster zone)) ∧
    (srvLoop qname cluster zone n l).2.get? i =
      some (glueRR (srvTarget (n + i) cluster zone) sai.addr) := by
  induction l generalizing n i with
  | nil => simp at h
  | cons a rest ih =>
    cases i with
    | zero =>
      have h' : a = sai := by simpa using h
      subst h'
      refine ⟨?_, ?_⟩ <;> simp [srvLoop]
    | succ j =>
      have h' : rest.get? j = some sai := by simpa using h
      have ihj := ih (n + 1) j h'
      have e : n + 1 + j = n + (j + 1) := by omega
      rw [e] at ihj
      refine ⟨?_, ?_⟩
      · simpa [srvLoop] using ihj.1
      · simpa [srvLoop] using ihj.2

lemma find_first_characterization (p : String → Bool) (l : List String) :
    (l.find? p = none ∧ ∀ x ∈ l, p x = false) ∨
    ∃ y pre post, l.find? p = some y ∧ l = pre ++ y :: post ∧ p y = true ∧
      ∀ x ∈ pre, p x = false := by
  induction l with
  | nil => exact Or.inl ⟨rfl, by simp⟩
  | cons a l ih =>
    cases ha : p a with
    | true =>
      exact Or.inr ⟨a, [], l, by simp [List.find?, ha], rfl, ha, by simp⟩
    | false =>
      rcases ih with ⟨h1, h2⟩ | ⟨y, pre, post, h1, h2, h3, h4⟩
      · refine Or.inl ⟨by simp [List.find?, ha, h1], ?_⟩
        intro x hx
        rcases List.mem_cons.mp hx with rfl | hx
        · exact ha
        · exact h2 x hx
      · refine Or.inr ⟨y, a :: pre, post, by simp [List.find?, ha, h1], by simp [h2], h3, ?_⟩
        intro x hx
        rcases List.mem_cons.mp hx with rfl | hx
        · exact ha
        · exact h4 x hx

/-- C1: the claim states that every `endpoint-N.cluster` query with
N ≥ length of `SelectAll(cluster)` yields NXDOMAIN with a synthetic SOA.
The code's range guard is `len(sockaddrs) < nr`, off by one, so at
N = length the Go code evaluates `sockaddrs[nr]` out of range and panics
instead of answering (modelled as `none`): here the cluster `web` has one
endpoint and the query asks for `endpoint-1`. -/
theorem C1_endpoint_index_eq_length_panics :
    serveDNS exTraffic exState 7 "endpoint-1.web.example.org." QType.a =
      none := rfl

/-- C2: the claim states handling always completes with exactly one
well-formed message and never crashes, even for an `endpoint-N` name with
negative parsed N.  `strconv.Atoi` accepts `-1`, the `len(sockaddrs) < nr`
guard does not reject it, and `sockaddrs[-1]` panics (modelled as
`none`). -/
theorem C2_negative_endpoint_index_panics :
    serveDNS exTraffic exState 7 "endpoint--1.web.example.org." QType.a =
      none := rfl

/-- C3 counterexample: the claim requires case-insensitive label-boundary
zone matching, under which `fooexample.org.` matches no configured zone;
the code uses a raw string-suffix test, so it does match `example.org.`
(and, the zone trim failing, goes on to answer NXDOMAIN with that zone's
SOA instead of yielding no zone). -/
theorem C3_counterexample :
    zoneMatchesSpec "fooexample.org." "example.org." = false ∧
    (matchZone ["example.org."] (requestName "fooexample.org.")).2 =
      "example.org." ∧
    serveDNS exTraffic exState 7 "fooexample.org." QType.a =
      some (nxdomainMsg 7 "example.org.") :=
  ⟨rfl, rfl, rfl⟩

/-- C3 (amended): the matched zone is the first configured zone that is a
raw string suffix of the lower-cased query name: either no origin is such
a suffix and both the matched zone and the cluster identifier are empty,
or the matched zone is a raw suffix of the lower-cased name and every
earlier origin is not. -/
theorem C3_first_raw_suffix_zone (origins : List String) (qname : String) :
    ((matchZone origins (requestName qname)).2 = "" ∧
      (matchZone origins (requestName qname)).1 = "" ∧
      ∀ o ∈ origins, strEndsWith (requestName qname) o = false) ∨
    (∃ pre post,
      origins = pre ++ (matchZone origins (requestName qname)).2 :: post ∧
      strEndsWith (requestName qname)
        (matchZone origins (requestName qname)).2 = true ∧
      ∀ o ∈ pre, strEndsWith (requestName qname) o = false) := by
  rcases find_first_characterization
      (fun o => strEndsWith (requestName qname) o) origins with
    ⟨h1, h2⟩ | ⟨y, pre, post, h1, h2, h3, h4⟩
  · left
    unfold matchZone
    rw [h1]
    exact ⟨rfl, rfl, h2⟩
  · right
    have hmz : matchZone origins (requestName qname) =
        (trimZone (requestName qname) y, y) := by
      unfold matchZone
      rw [h1]
    refine ⟨pre, post, ?_, ?_, h4⟩
    · rw [hmz]
      exact h2
    · rw [hmz]
      exact h3

/-- C4 counterexample: the claim says a 2-label subject whose first label
is neither `_tcp` nor `endpoint-<integer>` yields NXDOMAIN when the direct
lookup fails; the code's 2-label switch falls through without setting the
rcode, so `foo.bar` yields NOERROR/NODATA (rcode 0, not 3). -/
theorem C4_counterexample :
    serveDNS exTraffic exState 7 "foo.bar.example.org." QType.a =
      some (nodataMsg 7 "example.org.") ∧
    (nodataMsg 7 "example.org.").rcode = 0 :=
  ⟨rfl, rfl⟩

/-- C4 (amended): for every 2-label subject whose first label is neither
`_tcp` (case-insensitive) nor prefixed by `endpoint-`, when the direct
lookup of the full subject fails the emitted response is NOERROR/NODATA:
empty answer with a synthetic SOA in the authority section. -/
theorem C4_garbage_two_label_nodata (t : Traffic) (st : XdsState)
    (now : Nat) (qname : String) (qtype : QType)
    (cluster zone l0 l1 : String)
    (hm : matchZone t.origins (requestName qname) = (cluster, zone))
    (hmiss : st.clusters.lookup cluster = none)
    (hsplit : splitDomainName cluster = [l0, l1])
    (htcp : strToLower l0 ≠ "_tcp")
    (hep : strStartsWith (strToLower l0) "endpoint-" = false) :
    serveDNS t st now qname qtype = some (nodataMsg now zone) := by
  have hcf : classifyFallback t st now zone cluster = .cont cluster none := by
    unfold classifyFallback
    rw [hsplit]
    simp [htcp, hep]
  rw [serveDNS_eq_core t st now qname qtype cluster zone hm]
  exact serveDNSCore_cont_none t st now cluster zone qname qtype cluster
    hmiss hcf

/-- C4 witness: the amended theorem applied to the concrete garbage name
`foo.bar.example.org.`. -/
theorem C4_witness :
    serveDNS exTraffic exState 7 "foo.bar.example.org." QType.a =
      some (nodataMsg 7 "example.org.") :=
  C4_garbage_two_label_nodata exTraffic exState 7 "foo.bar.example.org."
    QType.a "foo.bar" "example.org." "foo" "bar" rfl rfl rfl (by decide) rfl

/-- C5: every emitted response message has rcode NOERROR or NXDOMAIN, and
exactly one of a non-empty answer section or a synthetic SOA in the
authority section.  (The paths on which the Go code panics emit no
message and are outside the quantification.) -/
theorem C5_response_invariant (t : Traffic) (st : XdsState) (now : Nat)
    (qname : String) (qtype : QType) (m : Msg)
    (h : serveDNS t st now qname qtype = some m) : msgInv now m := by
  unfold serveDNS serveDNSCore at h
  generalize hcz1 : (matchZone t.origins (requestName qname)).1 = cluster at h
  generalize hcz2 : (matchZone t.origins (requestName qname)).2 = zone at h
  cases hmatch : (if (xdsSelect st cluster t.health).2 = true then
      AfterSelect.cont cluster (xdsSelect st cluster t.health).1
    else classifyFallback t st now zone cluster) with
  | emit m1 =>
    rw [hmatch] at h
    have h' : some m1 = some m := h
    cases h'
    by_cases hsel : (xdsSelect st cluster t.health).2 = true
    · rw [if_pos hsel] at hmatch
      exact absurd hmatch (by simp)
    · rw [if_neg hsel] at hmatch
      rcases classifyFallback_emit t st now zone cluster m hmatch with h2 | h2
      · rw [h2]; exact msgInv_nodata now zone
      · rw [h2]; exact msgInv_nxdomain now zone
  | endpoint ep cl =>
    rw [hmatch] at h
    have h' : serveEndpoint t st now zone qname qtype ep cl = some m := h
    exact msgInv_serveEndpoint t st now zone qname qtype ep cl m h'
  | cont cl sa =>
    rw [hmatch] at h
    cases sa with
    | none =>
      have h' : some (nodataMsg now zone) = some m := h
      cases h'
      exact msgInv_nodata now zone
    | some s =>
      have h' : some (synthesize t st now zone qname cl qtype s) = some m := h
      cases h'
      apply msgInv_synthesize
      intro _
      by_cases hsel : (xdsSelect st cluster t.health).2 = true
      · rw [if_pos hsel] at hmatch
        injection hmatch with e1 e2
        subst e1
        exact xdsAll_ne_nil_of_select st cluster t.health s e2
      · rw [if_neg hsel] at hmatch
        rcases classifyFallback_cont t st now zone cluster cl (some s) hmatch
          with h2 | h2
        · exact absurd h2 (by simp)
        · exact xdsAll_ne_nil_of_select st cl t.health s h2.symm

/-- C5 witness: the invariant instantiated on a concrete NODATA answer
(AAAA query against an IPv4-only endpoint). -/
theorem C5_witness : msgInv 7 (nodataMsg 7 "example.org.") :=
  C5_response_invariant exTraffic exState 7 "web.example.org." QType.aaaa
    (nodataMsg 7 "example.org.") rfl

/-- C6 counterexample: the claim quantifies over every provider state, but
when a cluster is literally named `_tcp.web` the optimistic direct lookup
of the full subject succeeds and an A query is answered positively, not
with NOERROR/NODATA. -/
theorem C6_counterexample :
    serveDNS exTraffic exStateTcp 7 "_tcp.web.example.org." QType.a =
      some { mkReply with
        answer := [RR.a "_tcp.web.example.org." 5 (Addr.v4 5)] } ∧
    ({ mkReply with
        answer := [RR.a "_tcp.web.example.org." 5 (Addr.v4 5)] } : Msg).answer
      ≠ [] :=
  ⟨rfl, by simp⟩

/-- C6 (amended): for every query whose subject is a 2-label name with
first label `_tcp` (case-insensitive), for every provider state in which
the full subject is not itself a known cluster (so the direct lookup
fails), the response is NOERROR with an empty answer and a synthetic SOA,
regardless of whether the second label resolves. -/
theorem C6_bare_tcp_nodata (t : Traffic) (st : XdsState) (now : Nat)
    (qname : String) (qtype : QType) (cluster zone l0 l1 : String)
    (hm : matchZone t.origins (requestName qname) = (cluster, zone))
    (hmiss : st.clusters.lookup cluster = none)
    (hsplit : splitDomainName cluster = [l0, l1])
    (htcp : strToLower l0 = "_tcp") :
    serveDNS t st now qname qtype = some (nodataMsg now zone) := by
  have hcf : classifyFallback t st now zone cluster =
      .emit (nodataMsg now zone) := by
    unfold classifyFallback
    rw [hsplit]
    simp [htcp]
  rw [serveDNS_eq_core t st now qname qtype cluster zone hm]
  exact serveDNSCore_emit t st now cluster zone qname qtype _ hmiss hcf

/-- C6 witness: `_tcp.web.example.org.` against a provider that has no
cluster named `_tcp.web`. -/
theorem C6_witness :
    serveDNS exTraffic exState 7 "_tcp.web.example.org." QType.srv =
      some (nodataMsg 7 "example.org.") :=
  C6_bare_tcp_nodata exTraffic exState 7 "_tcp.web.example.org." QType.srv
    "_tcp.web" "example.org." "_tcp" "web" rfl rfl rfl rfl

/-- C7: for every SRV query on a found cluster, the response carries one
SRV record (priority 100, weight 100, TTL 5, port of the endpoint, target
`endpoint-<index>.<cluster>.<zone>`) and one glue record per element of
`SelectAll(cluster)`, position by position; each glue record's name is its
SRV record's target and its type matches the endpoint's address family,
so both sections have exactly the length of `SelectAll(cluster)`. -/
theorem C7_srv_synthesis (t : Traffic) (st : XdsState) (now : Nat)
    (qname cluster zone : String) (sa : SockAddr)
    (hm : matchZone t.origins (requestName qname) = (cluster, zone))
    (hsel : xdsSelect st cluster t.health = (some sa, true)) :
    ∃ m, serveDNS t st now qname QType.srv = some m ∧
      m.rcode = 0 ∧
      m.answer.length = (xdsAll st cluster t.health).length ∧
      m.extra.length = (xdsAll st cluster t.health).length ∧
      ∀ i sai, (xdsAll st cluster t.health).get? i = some sai →
        m.answer.get? i =
          some (RR.srv qname 5 100 100 sai.port (srvTarget i cluster zone)) ∧
        m.extra.get? i = some (glueRR (srvTarget i cluster zone) sai.addr) ∧
        (glueRR (srvTarget i cluster zone) sai.addr).rrName =
          srvTarget i cluster zone ∧
        (glueRR (srvTarget i cluster zone) sai.addr).matchesFamily sai.addr =
          true := by
  refine ⟨synthesize t st now zone qname cluster QType.srv sa,
    ?_, rfl, ?_, ?_, ?_⟩
  · rw [serveDNS_eq_core t st now qname QType.srv cluster zone hm]
    exact serveDNSCore_ok t st now cluster zone qname QType.srv sa hsel
  · exact (srvLoop_lengths qname cluster zone 0 _).1
  · exact (srvLoop_lengths qname cluster zone 0 _).2
  · intro i sai hget
    have hg := srvLoop_get? qname cluster zone 0 _ i sai hget
    rw [Nat.zero_add] at hg
    refine ⟨hg.1, hg.2, ?_, ?_⟩
    · unfold glueRR
      split <;> rfl
    · cases sai.addr <;> simp [glueRR, Addr.isV4, RR.matchesFamily]

/-- C7 witness: the SRV invariant on the concrete cluster `web` with one
endpoint. -/
theorem C7_witness :
    ∃ m, serveDNS exTraffic exState 7 "web.example.org." QType.srv =
        some m ∧
      m.rcode = 0 ∧
      m.answer.length = (xdsAll exState "web" exTraffic.health).length ∧
      m.extra.length = (xdsAll exState "web" exTraffic.health).length ∧
      ∀ i sai, (xdsAll exState "web" exTraffic.health).get? i = some sai →
        m.answer.get? i =
          some (RR.srv "web.example.org." 5 100 100 sai.port
            (srvTarget i "web" "example.org.")) ∧
        m.extra.get? i =
          some (glueRR (srvTarget i "web" "example.org.") sai.addr) ∧
        (glueRR (srvTarget i "web" "example.org.") sai.addr).rrName =
          srvTarget i "web" "example.org." ∧
        (glueRR (srvTarget i "web" "example.org.") sai.addr).matchesFamily
          sai.addr = true :=
  C7_srv_synthesis exTraffic exState 7 "web.example.org." "web"
    "example.org." { addr := Addr.v4 167772161, port := 8080, healthy := true }
    rfl rfl

/-- C8: for every `endpoint-N.cluster` query with the subject itself not a
known cluster, `cluster` known, N parsed, non-negative and strictly below
the length of `SelectAll(cluster)`: an A query whose selected endpoint is
IPv4 (resp. an AAAA query whose endpoint is IPv6) is answered NOERROR with
the single address record carrying the address of the Nth element of
`SelectAll(cluster)`. -/
theorem C8_endpoint_in_range (t : Traffic) (st : XdsState) (now : Nat)
    (qname : String) (cluster zone l0 l1 : String) (el : List SockAddr)
    (nr : Int) (sa : SockAddr)
    (hm : matchZone t.origins (requestName qname) = (cluster, zone))
    (hmiss : st.clusters.lookup cluster = none)
    (hsplit : splitDomainName cluster = [l0, l1])
    (hep : strStartsWith (strToLower l0) "endpoint-" = true)
    (hok : st.clusters.lookup l1 = some el)
    (hparse : parseEndpointNr l0 = some nr)
    (hnr : 0 ≤ nr)
    (hget : (xdsAll st l1 t.health).get? nr.toNat = some sa) :
    (sa.addr.isV4 = true →
      serveDNS t st now qname QType.a =
        some { mkReply with answer := [RR.a qname 5 sa.addr] }) ∧
    (sa.addr.isV4 = false →
      serveDNS t st now qname QType.aaaa =
        some { mkReply with answer := [RR.aaaa qname 5 sa.addr] }) := by
  have htcp : ¬ strToLower l0 = "_tcp" := by
    intro hcontra
    rw [hcontra] at hep
    exact absurd hep (by decide)
  have hsel2 : (xdsSelect st l1 t.health).2 = true :=
    xdsSelect_snd_true st l1 t.health el hok
  have hcf : classifyFallback t st now zone cluster = .endpoint l0 l1 := by
    unfold classifyFallback
    rw [hsplit]
    simp [htcp, hep, hsel2]
  have hroute : ∀ qt : QType,
      serveDNS t st now qname qt =
        serveEndpoint t st now zone qname qt l0 l1 := by
    intro qt
    rw [serveDNS_eq_core t st now qname qt cluster zone hm]
    exact serveDNSCore_endpoint t st now cluster zone qname qt l0 l1 hmiss hcf
  constructor
  · intro hv4
    rw [hroute QType.a,
      serveEndpoint_valid t st now zone qname QType.a l0 l1 nr sa hparse hnr
        hget,
      endpointAnswer_a_v4 now zone qname sa.addr hv4]
  · intro hv6
    rw [hroute QType.aaaa,
      serveEndpoint_valid t st now zone qname QType.aaaa l0 l1 nr sa hparse
        hnr hget,
      endpointAnswer_aaaa_v6 now zone qname sa.addr hv6]

/-- C8 witness: `endpoint-0.web.example.org.` with a one-element endpoint
list. -/
theorem C8_witness :
    serveDNS exTraffic exState 7 "endpoint-0.web.example.org." QType.a =
      some { mkReply with
        answer :=
          [RR.a "endpoint-0.web.example.org." 5 (Addr.v4 167772161)] } :=
  (C8_endpoint_in_range exTraffic exState 7 "endpoint-0.web.example.org."
    "endpoint-0.web" "example.org." "endpoint-0" "web"
    [{ addr := Addr.v4 167772161, port := 8080, healthy := true }] 0
    { addr := Addr.v4 167772161, port := 8080, healthy := true }
    rfl rfl rfl rfl rfl rfl (by decide) rfl).1 rfl

/-- C9: a 3-label subject `_grpclb._tcp.<cluster>` not satisfied by the
direct lookup selects from the configured management cluster, ignoring the
third label entirely; when the management cluster is missing or empty the
handler still proceeds to synthesis and emits the NODATA message rather
than failing earlier. -/
theorem C9_grpclb_uses_mgmt (t : Traffic) (st : XdsState) (now : Nat)
    (qname : String) (qtype : QType) (cluster zone l0 l1 l2 : String)
    (hm : matchZone t.origins (requestName qname) = (cluster, zone))
    (hmiss : st.clusters.lookup cluster = none)
    (hsplit : splitDomainName cluster = [l0, l1, l2])
    (hg : strToLower l0 = "_grpclb")
    (ht : strToLower l1 = "_tcp") :
    serveDNS t st now qname qtype =
      match (xdsSelect st t.mgmt t.health).1 with
      | none => some (nodataMsg now zone)
      | some sa => some (synthesize t st now zone qname t.mgmt qtype sa) := by
  have hcf : classifyFallback t st now zone cluster =
      .cont t.mgmt (xdsSelect st t.mgmt t.health).1 := by
    unfold classifyFallback
    rw [hsplit]
    simp [hg, ht]
  rw [serveDNS_eq_core t st now qname qtype cluster zone hm]
  cases hsa : (xdsSelect st t.mgmt t.health).1 with
  | none =>
    rw [hsa] at hcf
    exact serveDNSCore_cont_none t st now cluster zone qname qtype t.mgmt
      hmiss hcf
  | some sa =>
    rw [hsa] at hcf
    exact serveDNSCore_cont_some t st now cluster zone qname qtype t.mgmt sa
      hmiss hcf

/-- C9 witness: `_grpclb._tcp.web.example.org.` with the management
cluster `mgmt` missing from the provider: the handler still emits the
NODATA message. -/
theorem C9_witness :
    serveDNS exTraffic exState 7 "_grpclb._tcp.web.example.org."
      QType.srv = some (nodataMsg 7 "example.org.") := by
  rw [C9_grpclb_uses_mgmt exTraffic exState 7
    "_grpclb._tcp.web.example.org." QType.srv "_grpclb._tcp.web"
    "example.org." "_grpclb" "_tcp" "web" rfl rfl rfl rfl rfl]
  exact rfl

/-- C10: a query matching no configured zone is still answered by the
handler itself (never delegated): the cluster identifier and the zone are
both empty, and with no cluster named `""` the empty subject splits into
zero labels, landing in the invalid-label-count branch: NXDOMAIN with a
synthetic SOA for the empty zone. -/
theorem C10_no_zone_match_nxdomain (t : Traffic) (st : XdsState)
    (now : Nat) (qname : String) (qtype : QType)
    (hnom : ∀ o ∈ t.origins, strEndsWith (requestName qname) o = false)
    (hempty : st.clusters.lookup "" = none) :
    serveDNS t st now qname qtype = some (nxdomainMsg now "") := by
  have hm : matchZone t.origins (requestName qname) = ("", "") := by
    unfold matchZone
    have hf : t.origins.find?
        (fun o => strEndsWith (requestName qname) o) = none := by
      rw [List.find?_eq_none]
      intro x hx
      simp [hnom x hx]
    rw [hf]
  have hcf : classifyFallback t st now "" "" =
      .emit (nxdomainMsg now "") := rfl
  rw [serveDNS_eq_core t st now qname qtype "" "" hm]
  exact serveDNSCore_emit t st now "" "" qname qtype _ hempty hcf

/-- C10 witness: `other.test.` matches no configured zone and is answered
NXDOMAIN with the empty-zone SOA. -/
theorem C10_witness :
    serveDNS exTraffic exState 7 "other.test." QType.a =
      some (nxdomainMsg 7 "") :=
  C10_no_zone_match_nxdomain exTraffic exState 7 "other.test." QType.a
    (by decide) rfl
